import Mathlib

/-!
Verification of the NL-to-SQL-AI schema-processor UI component.

The development embeds, as executable Lean definitions, the component's
state cells, the two variants of `processSchema` (the fetch variant in
`src/unnamed/part_000` and the mock variant in `src/frontend.js`), the
file-change handler, the result renderer and the download exporter, and
proves the spec's claims about them.
-/

namespace NLToSQL

/-- A JSON value, as stored in the component's `result` state cell and
returned by the backend.  Numbers carry their decimal literal text, which
is how `JSON.stringify` renders them (the source only ever builds number
literals such as `0.85`). -/
inductive JsonVal where
  | null : JsonVal
  | bool (b : Bool) : JsonVal
  | num (lit : String) : JsonVal
  | str (s : String) : JsonVal
  | arr (elems : List JsonVal) : JsonVal
  | obj (fields : List (String × JsonVal)) : JsonVal

/-- Lowercase hexadecimal digit, as used by the `\u00xx` escapes of
`JSON.stringify`. -/
def hexDigit (n : Nat) : Char :=
  if n < 10 then Char.ofNat (48 + n) else Char.ofNat (87 + n)

/-- Escape one character of a JSON string, following the Quote operation
of `JSON.stringify`. -/
def escapeJsonChar (c : Char) : String :=
  if c = '"' then "\\\""
  else if c = '\\' then "\\\\"
  else if c = Char.ofNat 8 then "\\b"
  else if c = Char.ofNat 9 then "\\t"
  else if c = Char.ofNat 10 then "\\n"
  else if c = Char.ofNat 12 then "\\f"
  else if c = Char.ofNat 13 then "\\r"
  else if c.toNat < 32 then
    "\\u00" ++ String.mk [hexDigit (c.toNat / 16), hexDigit (c.toNat % 16)]
  else String.mk [c]

/-- Quote a JSON string, following `JSON.stringify`. -/
def jsonQuote (s : String) : String :=
  "\"" ++ String.join (s.toList.map escapeJsonChar) ++ "\""

/-- Indentation produced by `JSON.stringify(value, null, 2)` at the given
nesting depth: two spaces per level. -/
def jsonIndent (depth : Nat) : String :=
  String.mk (List.replicate (2 * depth) ' ')

mutual

/-- `JSON.stringify(v, null, 2)` at nesting depth `depth`: the
serialization used by the result renderer (`frontend.js` line 194) and
the download exporter (`frontend.js` line 75). -/
def jsonStringify (depth : Nat) : JsonVal → String
  | .null => "null"
  | .bool b => cond b "true" "false"
  | .num lit => lit
  | .str s => jsonQuote s
  | .arr [] => "[]"
  | .arr (x :: xs) =>
      "[\n" ++ jsonIndent (depth + 1) ++ jsonStringify (depth + 1) x ++
        jsonStringifyArrRest (depth + 1) xs ++ "\n" ++ jsonIndent depth ++ "]"
  | .obj [] => "\x7b\x7d"
  | .obj ((k, v) :: kvs) =>
      "\x7b\n" ++ jsonIndent (depth + 1) ++ jsonQuote k ++ ": " ++
        jsonStringify (depth + 1) v ++
        jsonStringifyObjRest (depth + 1) kvs ++ "\n" ++ jsonIndent depth ++ "\x7d"

/-- Remaining array elements: each on its own line after a comma. -/
def jsonStringifyArrRest (depth : Nat) : List JsonVal → String
  | [] => ""
  | x :: xs =>
      ",\n" ++ jsonIndent depth ++ jsonStringify depth x ++
        jsonStringifyArrRest depth xs

/-- Remaining object members: each on its own line after a comma. -/
def jsonStringifyObjRest (depth : Nat) : List (String × JsonVal) → String
  | [] => ""
  | (k, v) :: kvs =>
      ",\n" ++ jsonIndent depth ++ jsonQuote k ++ ": " ++
        jsonStringify depth v ++ jsonStringifyObjRest depth kvs

end

/-- The component's state cells (`frontend.js` lines 15-21).  The file is
represented by its name; `threshold` carries the textual form of the
numeric slider value (it is only ever transported, never computed with). -/
structure CompState where
  inputFile : Option String
  query : String
  outputFormat : String
  threshold : String
  result : Option JsonVal
  error : Option String
  loading : Bool

/-- The multipart form data assembled by the fetch variant of
`processSchema` (`src/unnamed/part_000` lines 11-15). -/
structure RequestData where
  file : String
  query : String
  output_format : String
  threshold : String
deriving DecidableEq, Repr

/-- A parsed JSON response body, `{ success, result?, error? }`
(`src/unnamed/part_000` lines 22-27); `none` marks an absent field. -/
structure ResponseBody where
  success : Bool
  result : Option JsonVal
  error : Option String

/-- Outcome of the awaited request: a parsed body, or an exception thrown
during transport or body parsing, carrying its message. -/
inductive FetchOutcome where
  | ok (body : ResponseBody) : FetchOutcome
  | exn (msg : String) : FetchOutcome

/-- What one call to the fetch variant of `processSchema` did: the final
state, the request issued (`none` when no network I/O happened), and
whether `setLoading(true)` was ever executed. -/
structure SubmitOutcome where
  final : CompState
  request : Option RequestData
  loadingSetTrue : Bool

/-- JavaScript `String.prototype.trim`: strip leading and trailing
whitespace. -/
def jsTrim (s : String) : String :=
  String.mk
    (((s.toList.dropWhile Char.isWhitespace).reverse.dropWhile
        Char.isWhitespace).reverse)

/-- The validation error message (`src/unnamed/part_000` line 3,
`frontend.js` line 33). -/
def validationMsg : String := "Please provide both a schema file and a query"

/-- The fetch variant of `processSchema` (`src/unnamed/part_000`),
parameterised by the outcome of the awaited `fetch`/`response.json()`:
validation, `setLoading(true); setError(null)`, the request, the
success/failure branches on `data.success`, the catch branch, and the
`finally` that clears `loading`. -/
def processSchema (s : CompState) (resp : FetchOutcome) : SubmitOutcome :=
  match s.inputFile with
  | none =>
      { final := { s with error := some validationMsg }
        request := none, loadingSetTrue := false }
  | some f =>
      if jsTrim s.query = "" then
        { final := { s with error := some validationMsg }
          request := none, loadingSetTrue := false }
      else
        let s1 : CompState := { s with loading := true, error := none }
        let req : RequestData :=
          { file := f, query := s.query
            output_format := s.outputFormat, threshold := s.threshold }
        let s2 : CompState :=
          match resp with
          | .ok body =>
              if body.success then { s1 with result := body.result }
              else { s1 with error := body.error }
          | .exn msg =>
              { s1 with error := some ("Error processing schema: " ++ msg) }
        { final := { s2 with loading := false }
          request := some req, loadingSetTrue := true }

/-- The hardcoded two-entity payload of the mock variant
(`frontend.js` lines 46-61). -/
def mockResult : JsonVal :=
  .obj
    [("orders", .obj
        [("columns", .arr
            [.obj [("name", .str "order_id"), ("type", .str "integer"),
                   ("description", .str "Unique order identifier")],
             .obj [("name", .str "user_id"), ("type", .str "integer"),
                   ("description", .str "Reference to users table")]]),
         ("relevance_score", .num "0.85")]),
     ("users", .obj
        [("columns", .arr
            [.obj [("name", .str "user_id"), ("type", .str "integer"),
                   ("description", .str "Unique user identifier")],
             .obj [("name", .str "username"), ("type", .str "string"),
                   ("description", .str "User\x27s display name")]]),
         ("relevance_score", .num "0.65")])]

/-- What one call to the mock variant of `processSchema` did. -/
structure MockOutcome where
  final : CompState
  loadingSetTrue : Bool

/-- The mock variant of `processSchema` (`frontend.js` lines 31-69):
same validation, then after the simulated delay it stores `mockResult`;
nothing in its try block throws, and `finally` clears `loading`. -/
def processSchemaMock (s : CompState) : MockOutcome :=
  match s.inputFile with
  | none =>
      { final := { s with error := some validationMsg }, loadingSetTrue := false }
  | some _ =>
      if jsTrim s.query = "" then
        { final := { s with error := some validationMsg }, loadingSetTrue := false }
      else
        let s1 : CompState := { s with loading := true, error := none }
        let s2 : CompState := { s1 with result := some mockResult }
        { final := { s2 with loading := false }, loadingSetTrue := true }

/-- `handleFileChange` (`frontend.js` lines 23-29): `files[0]` of the
event, `none` when no file was selected. -/
def handleFileChange (file : Option String) (s : CompState) : CompState :=
  match file with
  | none => s
  | some f => { s with inputFile := some f, error := none }

/-- The content string shared by the result renderer (`frontend.js`
lines 193-195) and the download exporter (lines 74-76):
`outputFormat === 'json' ? JSON.stringify(result, null, 2) : "# YAML output would be here"`. -/
def formatContent (r : JsonVal) (fmt : String) : String :=
  if fmt = "json" then jsonStringify 0 r else "# YAML output would be here"

/-- The result renderer (`frontend.js` lines 182-199): guarded by
`result &&`, so nothing is rendered when `result` is null. -/
def renderResult (result : Option JsonVal) (fmt : String) : Option String :=
  result.map (fun r => formatContent r fmt)

/-- Observable actions of `downloadResult` on the browser environment. -/
inductive DomAction where
  | createBlob (content : String) (mime : String) : DomAction
  | createObjectURL (url : Nat) : DomAction
  | createAnchor (hrefUrl : Nat) (downloadName : String) : DomAction
  | appendChild : DomAction
  | click : DomAction
  | removeChild : DomAction
  | revokeObjectURL (url : Nat) : DomAction
deriving DecidableEq, Repr

/-- `downloadResult` (`frontend.js` lines 71-87) as the sequence of
actions it performs: early return when `result` is null, otherwise
blob creation, one object URL, a synthetic anchor named
`processed_schema.<outputFormat>`, append, click, remove, revoke. -/
def downloadResult (result : Option JsonVal) (fmt : String) : List DomAction :=
  match result with
  | none => []
  | some r =>
      let content := formatContent r fmt
      [.createBlob content "text/plain",
       .createObjectURL 0,
       .createAnchor 0 ("processed_schema." ++ fmt),
       .appendChild,
       .click,
       .removeChild,
       .revokeObjectURL 0]

/-- Is this action a `URL.createObjectURL` call? -/
def isCreateURL : DomAction → Bool
  | .createObjectURL _ => true
  | _ => false

/-- Is this action a `URL.revokeObjectURL` call? -/
def isRevokeURL : DomAction → Bool
  | .revokeObjectURL _ => true
  | _ => false

/-- Is this action the synthetic anchor click? -/
def isClick : DomAction → Bool
  | .click => true
  | _ => false

/-- The URLs created by a trace. -/
def createdURLs (tr : List DomAction) : List Nat :=
  tr.filterMap fun a => match a with
    | .createObjectURL u => some u
    | _ => none

/-- The URLs revoked by a trace. -/
def revokedURLs (tr : List DomAction) : List Nat :=
  tr.filterMap fun a => match a with
    | .revokeObjectURL u => some u
    | _ => none

/-- The download names given to anchors created by a trace. -/
def anchorNames (tr : List DomAction) : List String :=
  tr.filterMap fun a => match a with
    | .createAnchor _ n => some n
    | _ => none

/-- The precondition under which `processSchema` passes validation:
a file is selected and the query is non-blank after trimming. -/
def validInput (s : CompState) : Prop :=
  s.inputFile.isSome = true ∧ jsTrim s.query ≠ ""

instance (s : CompState) : Decidable (validInput s) := by
  unfold validInput; infer_instance

/-- Exactly one of the `error` and `result` cells is populated. -/
def exactlyOne (s : CompState) : Prop :=
  (s.error.isSome = true ∧ s.result.isNone = true) ∨
  (s.error.isNone = true ∧ s.result.isSome = true)

instance (s : CompState) : Decidable (exactlyOne s) := by
  unfold exactlyOne; infer_instance

/-- A state whose form passes validation, with no prior result. -/
def sampleValid : CompState :=
  { inputFile := some "schema.json", query := "find user orders"
    outputFormat := "json", threshold := "0.1"
    result := none, error := none, loading := false }

/-- A state with no selected file. -/
def sampleNoFile : CompState :=
  { inputFile := none, query := "anything"
    outputFormat := "json", threshold := "0.1"
    result := none, error := none, loading := false }

/-- A valid form state that still holds the result of an earlier
successful submission. -/
def staleResultState : CompState :=
  { inputFile := some "schema.json", query := "q"
    outputFormat := "json", threshold := "0.1"
    result := some (.str "stale"), error := none, loading := false }

/-- Claim C1: whenever the file is absent or the query is empty after
trimming, `processSchema` sets the error to exactly
"Please provide both a schema file and a query", issues no request,
and never sets `loading` to true — in the fetch variant and in the mock
variant alike. -/
theorem claim_c1_validation_no_request (s : CompState) (resp : FetchOutcome)
    (h : s.inputFile = none ∨ jsTrim s.query = "") :
    (processSchema s resp).final.error =
      some "Please provide both a schema file and a query" ∧
    (processSchema s resp).request = none ∧
    (processSchema s resp).loadingSetTrue = false ∧
    (processSchema s resp).final.loading = s.loading ∧
    (processSchemaMock s).final.error =
      some "Please provide both a schema file and a query" ∧
    (processSchemaMock s).loadingSetTrue = false ∧
    (processSchemaMock s).final.loading = s.loading := by
  rcases h with h | h
  · simp [processSchema, processSchemaMock, h, validationMsg]
  · cases hf : s.inputFile <;>
      simp [processSchema, processSchemaMock, hf, h, validationMsg]

/-- Concrete run of claim C1: no file selected, query "anything". -/
theorem claim_c1_witness :
    (processSchema sampleNoFile (.exn "network down")).final.error =
      some "Please provide both a schema file and a query" ∧
    (processSchema sampleNoFile (.exn "network down")).request = none ∧
    (processSchema sampleNoFile (.exn "network down")).loadingSetTrue = false ∧
    (processSchema sampleNoFile (.exn "network down")).final.loading =
      sampleNoFile.loading ∧
    (processSchemaMock sampleNoFile).final.error =
      some "Please provide both a schema file and a query" ∧
    (processSchemaMock sampleNoFile).loadingSetTrue = false ∧
    (processSchemaMock sampleNoFile).final.loading = sampleNoFile.loading :=
  claim_c1_validation_no_request sampleNoFile (.exn "network down") (Or.inl rfl)

/-- Claim C2: for every response whose parsed body has `success = true`,
after `processSchema` completes the stored result is exactly the body's
`result` field and the error is null. -/
theorem claim_c2_success_stores_result (s : CompState) (body : ResponseBody)
    (hv : validInput s) (hs : body.success = true) :
    (processSchema s (.ok body)).final.result = body.result ∧
    (processSchema s (.ok body)).final.error = none := by
  obtain ⟨hf, hq⟩ := hv
  cases hfe : s.inputFile with
  | none => rw [hfe] at hf; simp at hf
  | some f => simp [processSchema, hfe, hq, hs]

/-- Concrete run of claim C2: a success body carrying a result. -/
theorem claim_c2_witness :
    (processSchema sampleValid
        (.ok { success := true, result := some (.str "ok"), error := none })).final.result =
      some (JsonVal.str "ok") ∧
    (processSchema sampleValid
        (.ok { success := true, result := some (.str "ok"), error := none })).final.error =
      none :=
  claim_c2_success_stores_result sampleValid
    { success := true, result := some (.str "ok"), error := none }
    ⟨rfl, by decide⟩ rfl

/-- Claim C3: for every response whose parsed body has `success = false`,
after `processSchema` completes the stored error is exactly the body's
`error` field and the stored result keeps its prior value. -/
theorem claim_c3_failure_keeps_result (s : CompState) (body : ResponseBody)
    (hv : validInput s) (hs : body.success = false) :
    (processSchema s (.ok body)).final.error = body.error ∧
    (processSchema s (.ok body)).final.result = s.result := by
  obtain ⟨hf, hq⟩ := hv
  cases hfe : s.inputFile with
  | none => rw [hfe] at hf; simp at hf
  | some f => simp [processSchema, hfe, hq, hs]

/-- Concrete run of claim C3: a failure body arriving while a stale
result is stored; the stale result survives. -/
theorem claim_c3_witness :
    (processSchema staleResultState
        (.ok { success := false, result := none, error := some "server rejected" })).final.error =
      some "server rejected" ∧
    (processSchema staleResultState
        (.ok { success := false, result := none, error := some "server rejected" })).final.result =
      staleResultState.result :=
  claim_c3_failure_keeps_result staleResultState
    { success := false, result := none, error := some "server rejected" }
    ⟨rfl, by decide⟩ rfl

/-- Claim C4 as stated is false: from a prior state that still holds a
result, a failure response populates the error while leaving the old
result in place, so both cells are populated at once. -/
theorem claim_c4_counterexample :
    ¬ exactlyOne (processSchema staleResultState
        (.ok { success := false, result := none, error := some "server rejected" })).final := by
  have hq : jsTrim "q" = "" ↔ False := by decide
  simp [processSchema, staleResultState, exactlyOne, hq]

/-- Claim C4 (amended): after a submission that starts from a prior state
with no stored result completes — with a success response carrying a
result field, a failure response carrying an error field, or a thrown
exception — exactly one of the error and result cells is populated. -/
theorem claim_c4_amended_exactly_one (s : CompState) (resp : FetchOutcome)
    (hv : validInput s) (hr : s.result = none)
    (hresp : ∀ body, resp = .ok body →
      (body.success = true ∧ body.result.isSome = true) ∨
      (body.success = false ∧ body.error.isSome = true)) :
    exactlyOne (processSchema s resp).final := by
  obtain ⟨hf, hq⟩ := hv
  cases hfe : s.inputFile with
  | none => rw [hfe] at hf; simp at hf
  | some f =>
      cases resp with
      | ok body =>
          rcases hresp body rfl with ⟨hs, hres⟩ | ⟨hs, herr⟩
          · exact Or.inr (by simp [processSchema, hfe, hq, hs, hres])
          · exact Or.inl (by simp [processSchema, hfe, hq, hs, herr, hr])
      | exn msg =>
          exact Or.inl (by simp [processSchema, hfe, hq, hr])

/-- Concrete run of amended claim C4: a thrown exception from a clean
prior state leaves exactly the error populated. -/
theorem claim_c4_witness :
    exactlyOne (processSchema sampleValid (.exn "boom")).final :=
  claim_c4_amended_exactly_one sampleValid (.exn "boom")
    ⟨rfl, by decide⟩ rfl (fun body h => nomatch h)

/-- Claim C5: for every exception thrown during the request or parsing,
`processSchema` sets the error to exactly
"Error processing schema: " followed by the exception message. -/
theorem claim_c5_exception_message (s : CompState) (msg : String)
    (hv : validInput s) :
    (processSchema s (.exn msg)).final.error =
      some ("Error processing schema: " ++ msg) := by
  obtain ⟨hf, hq⟩ := hv
  cases hfe : s.inputFile with
  | none => rw [hfe] at hf; simp at hf
  | some f => simp [processSchema, hfe, hq]

/-- Concrete run of claim C5. -/
theorem claim_c5_witness :
    (processSchema sampleValid (.exn "network down")).final.error =
      some ("Error processing schema: " ++ "network down") :=
  claim_c5_exception_message sampleValid "network down" ⟨rfl, by decide⟩

/-- Claim C6: every call that passes validation ends with
`loading = false`, on all completion paths of the fetch variant and on
the mock variant. -/
theorem claim_c6_loading_cleared (s : CompState) (resp : FetchOutcome)
    (hv : validInput s) :
    (processSchema s resp).final.loading = false ∧
    (processSchemaMock s).final.loading = false := by
  obtain ⟨hf, hq⟩ := hv
  cases hfe : s.inputFile with
  | none => rw [hfe] at hf; simp at hf
  | some f =>
      refine ⟨?_, by simp [processSchemaMock, hfe, hq]⟩
      cases resp with
      | ok body =>
          by_cases hs : body.success <;> simp [processSchema, hfe, hq, hs]
      | exn msg => simp [processSchema, hfe, hq]

/-- Concrete run of claim C6 on an exception outcome. -/
theorem claim_c6_witness :
    (processSchema sampleValid (.exn "boom")).final.loading = false ∧
    (processSchemaMock sampleValid).final.loading = false :=
  claim_c6_loading_cleared sampleValid (.exn "boom") ⟨rfl, by decide⟩

/-- Claim C7: the result renderer is a pure function of the result and
the output format — nothing when the result is null, the indented
`JSON.stringify` text for the json format, and the constant placeholder
for the yaml format regardless of the result's contents. -/
theorem claim_c7_renderer :
    (∀ fmt, renderResult none fmt = none) ∧
    (∀ r : JsonVal, renderResult (some r) "json" = some (jsonStringify 0 r)) ∧
    (∀ r : JsonVal,
      renderResult (some r) "yaml" = some "# YAML output would be here") := by
  refine ⟨fun _ => rfl, fun r => ?_, fun r => ?_⟩ <;>
    simp [renderResult, formatContent]

/-- Claim C8: in the mock variant, every call that passes validation
stores exactly the hardcoded two-entity payload with a null error; this
path never produces an error. -/
theorem claim_c8_mock_payload (s : CompState) (hv : validInput s) :
    (processSchemaMock s).final.result = some mockResult ∧
    (processSchemaMock s).final.error = none := by
  obtain ⟨hf, hq⟩ := hv
  cases hfe : s.inputFile with
  | none => rw [hfe] at hf; simp at hf
  | some f => simp [processSchemaMock, hfe, hq]

/-- Concrete run of claim C8 on the spec's scenario inputs. -/
theorem claim_c8_witness :
    (processSchemaMock sampleValid).final.result = some mockResult ∧
    (processSchemaMock sampleValid).final.error = none :=
  claim_c8_mock_payload sampleValid ⟨rfl, by decide⟩

/-- Claim C9: with a null result `downloadResult` performs no action at
all; otherwise it creates exactly one object URL, names the saved file
`processed_schema.<outputFormat>`, revokes exactly the URL it created
exactly once, and that revocation directly follows the synthetic click
and the anchor's removal. -/
theorem claim_c9_download_trace :
    (∀ fmt, downloadResult none fmt = []) ∧
    (∀ (r : JsonVal) (fmt : String),
      (downloadResult (some r) fmt).countP isCreateURL = 1 ∧
      (downloadResult (some r) fmt).countP isRevokeURL = 1 ∧
      revokedURLs (downloadResult (some r) fmt) =
        createdURLs (downloadResult (some r) fmt) ∧
      anchorNames (downloadResult (some r) fmt) =
        ["processed_schema." ++ fmt] ∧
      (downloadResult (some r) fmt).dropWhile (fun a => !isClick a) =
        [.click, .removeChild, .revokeObjectURL 0]) := by
  refine ⟨fun _ => rfl, fun r fmt => ?_⟩
  refine ⟨?_, ?_, ?_, ?_, ?_⟩ <;>
    simp [downloadResult, isCreateURL, isRevokeURL, isClick,
      createdURLs, revokedURLs, anchorNames, List.countP, List.countP.go,
      List.dropWhile]

/-- Claim C10: a file-change event with no selected file changes nothing;
choosing a file sets it and clears the error, leaving the other state
cells untouched. -/
theorem claim_c10_file_change :
    (∀ s : CompState, handleFileChange none s = s) ∧
    (∀ (f : String) (s : CompState),
      (handleFileChange (some f) s).inputFile = some f ∧
      (handleFileChange (some f) s).error = none ∧
      (handleFileChange (some f) s).query = s.query ∧
      (handleFileChange (some f) s).outputFormat = s.outputFormat ∧
      (handleFileChange (some f) s).threshold = s.threshold ∧
      (handleFileChange (some f) s).result = s.result ∧
      (handleFileChange (some f) s).loading = s.loading) := by
  exact ⟨fun s => rfl, fun f s => ⟨rfl, rfl, rfl, rfl, rfl, rfl, rfl⟩⟩

end NLToSQL
